import Mathlib

/-!
Verification of the Rentalbiz driver-dispatch core.

This file is a shallow embedding, in Lean 4, of the algorithmic core of the
rental-management backend:

* `src/backend/src/backend/features/booking/utils.py`
  (`check_availability`, `detect_all_conflicts`),
* `src/backend/src/services/route_optimizer.py`
  (`build_driver_route`, `calculate_route_disruption`,
  `calculate_distance_to_address`, `has_time_conflict`, `recommend_drivers`),
* `src/backend/src/backend/api/routes.py` (`nearest_neighbor_route`),
* `src/backend/src/backend/api/drivers.py` (`get_driver_route`,
  `find_next_booking`).

Modelling conventions:

* Calendar dates are modelled as natural numbers (day indices); the source
  only compares dates with `==`, `<=`, `>=`, `>`, and a totally ordered day
  index is order-isomorphic to `datetime.date`.
* Monetary amounts and coordinates are modelled as rationals `ℚ`; the
  source uses Python floats, but every claim proved here concerns control
  flow, ordering and exact comparisons, not rounding.
* The geocoding provider (`geocode_address`, network I/O in
  `services/geocoding.py`) is abstracted as an explicit parameter
  `geo : String → Option (ℚ × ℚ)`; `none` models the source returning
  `None` on failure.  The haversine distance (`haversine_distance_miles`,
  floating-point trigonometry) is abstracted as an explicit parameter
  `dist` on coordinate pairs.  All theorems quantified over `geo` and
  `dist` hold in particular for the concrete provider and metric.
* Python `float("inf")` values flowing through `route_optimizer.py` are
  modelled as `Option ℚ` with `none` standing for infinity (the source
  only ever compares them with `==` against infinity or takes `min`).
* Python dicts keyed by ids preserve insertion order; they are modelled as
  association lists with insertion-order append (`addToGroup`).
-/

namespace Rentalbiz

/-! ## Data model (`backend/database/models.py`) -/

/-- `BookingStatus` enum from `models.py`. -/
inductive BookingStatus where
  | pending
  | confirmed
  | out_for_delivery
  | active
  | pickup_scheduled
  | completed
  | cancelled
deriving DecidableEq, Repr

/-- A `BookingItem` row: the inventory item reserved by a booking, and the
warehouses it is picked up from / returned to. -/
structure BookingItemRec where
  inventory_item_id : String
  pickup_warehouse_id : Option String
  return_warehouse_id : Option String
deriving DecidableEq, Repr

/-- A `Booking` row, restricted to the fields read by the dispatch core.
`delivery_driver_id` is the column `assigned_driver_id` (the recommender's
booking dicts expose it under the key `delivery_driver_id`). -/
structure BookingRec where
  booking_id : String
  order_number : String
  customer_name : String
  status : BookingStatus
  delivery_date : Nat
  pickup_date : Nat
  delivery_address : String
  delivery_driver_id : Option String
  pickup_driver_id : Option String
  booking_items : List BookingItemRec
  delivery_fee : ℚ
  tip : ℚ
deriving DecidableEq, Repr

/-- An `InventoryItem` row, restricted to the fields read here. -/
structure InventoryItemRec where
  inventory_item_id : String
  name : String
deriving DecidableEq, Repr

/-- A `Driver` record as passed to the route optimizer
(`{"id": ..., "name": ..., "is_active": ...}`). -/
structure DriverRec where
  id : String
  name : String
  is_active : Bool
deriving DecidableEq, Repr

/-- The database snapshot a request computes over. -/
structure Db where
  bookings : List BookingRec
  items : List InventoryItemRec
deriving DecidableEq, Repr

/-- A booking is terminal when its status is cancelled or completed; both
`check_availability` and `detect_all_conflicts` exclude exactly these via
`Booking.status.notin_([CANCELLED, COMPLETED])`. -/
def isTerminal (s : BookingStatus) : Bool :=
  s == BookingStatus.cancelled || s == BookingStatus.completed

/-! ## Availability checker (`features/booking/utils.py`, `check_availability`) -/

/-- One entry of the `conflicts` list returned by `check_availability`:
either the "Item not found" record or a dated conflict record
(`item_id`, `item_name`, `conflicting_booking`, `conflict_dates`). -/
inductive AvailConflict where
  | notFound (item_id : String)
  | overlap (item_id : String) (item_name : String) (conflicting_booking : String)
      (conflict_delivery : Nat) (conflict_pickup : Nat)
deriving DecidableEq, Repr

/-- The structured result of `check_availability`. -/
structure AvailResult where
  available : Bool
  conflicts : List AvailConflict
  message : String
deriving DecidableEq, Repr

/-- `check_availability(db, item_ids, delivery_date, pickup_date)`:
filters the non-terminal bookings whose date range touches the requested
range, then for each requested item id either records "not found" or one
conflict per overlapping booking that reserves the item. -/
def check_availability (db : Db) (item_ids : List String)
    (delivery_date pickup_date : Nat) : AvailResult :=
  let overlapping_bookings := db.bookings.filter fun b =>
    !(isTerminal b.status) && b.delivery_date ≤ pickup_date
      && delivery_date ≤ b.pickup_date
  let conflicts := item_ids.flatMap fun item_id =>
    match db.items.find? (fun it => it.inventory_item_id == item_id) with
    | none => [AvailConflict.notFound item_id]
    | some it =>
        overlapping_bookings.filterMap fun b =>
          if item_id ∈ b.booking_items.map (fun bi => bi.inventory_item_id) then
            some (AvailConflict.overlap item_id it.name b.order_number
              b.delivery_date b.pickup_date)
          else
            none
  let available := conflicts.length == 0
  { available := available
    conflicts := conflicts
    message :=
      if available then "All items available"
      else "Found " ++ toString conflicts.length ++ " conflict(s)" }

/-! ## Conflict detector (`features/booking/utils.py`, `detect_all_conflicts`) -/

/-- The per-booking record stored in the `item_bookings` grouping dict. -/
structure ConflictBInfo where
  booking_id : String
  order_number : String
  customer_name : String
  delivery_date : Nat
  pickup_date : Nat
deriving DecidableEq, Repr

/-- Projection of a booking into its grouping record. -/
def mkConflictBInfo (b : BookingRec) : ConflictBInfo :=
  { booking_id := b.booking_id
    order_number := b.order_number
    customer_name := b.customer_name
    delivery_date := b.delivery_date
    pickup_date := b.pickup_date }

/-- One conflict record emitted by `detect_all_conflicts`. -/
structure ConflictRec where
  item_id : String
  item_name : String
  booking1 : ConflictBInfo
  booking2 : ConflictBInfo
deriving DecidableEq, Repr

/-- Insertion-ordered dict update: append `v` to the list stored under
`key`, creating the key at the end on first insertion (Python dicts
preserve insertion order). -/
def addToGroup {β : Type} (groups : List (String × List β)) (key : String)
    (v : β) : List (String × List β) :=
  match groups with
  | [] => [(key, [v])]
  | (k, vs) :: rest =>
      if k = key then (k, vs ++ [v]) :: rest
      else (k, vs) :: addToGroup rest key v

/-- The `item_bookings` grouping loop of `detect_all_conflicts`: for each
booking (in list order) and each of its booking items, append the booking's
record under the item id. -/
def groupByItem (bs : List BookingRec) : List (String × List ConflictBInfo) :=
  bs.foldl
    (fun gs b =>
      b.booking_items.foldl
        (fun gs2 bi => addToGroup gs2 bi.inventory_item_id (mkConflictBInfo b))
        gs)
    []

/-- The inclusive interval-overlap test of `detect_all_conflicts`:
`booking1["delivery_date"] <= booking2["pickup_date"] and
booking2["delivery_date"] <= booking1["pickup_date"]`. -/
def infoOverlap (b1 b2 : ConflictBInfo) : Bool :=
  b1.delivery_date ≤ b2.pickup_date && b2.delivery_date ≤ b1.pickup_date

/-- Item-name lookup used when emitting a conflict
(`item.name if item else "Unknown"`). -/
def itemName (its : List InventoryItemRec) (item_id : String) : String :=
  match its.find? (fun it => it.inventory_item_id == item_id) with
  | some it => it.name
  | none => "Unknown"

/-- The nested pair loop of `detect_all_conflicts`
(`for i, booking1 in enumerate(bookings): for booking2 in bookings[i+1:]`),
emitting one record per overlapping ordered pair. -/
def emitPairs (its : List InventoryItemRec) (item_id : String) :
    List ConflictBInfo → List ConflictRec
  | [] => []
  | b1 :: rest =>
      (rest.filterMap fun b2 =>
        if infoOverlap b1 b2 then
          some { item_id := item_id, item_name := itemName its item_id
                 booking1 := b1, booking2 := b2 }
        else none)
      ++ emitPairs its item_id rest

/-- `detect_all_conflicts(db)`: group the non-terminal bookings by reserved
item, then emit one conflict per overlapping pair within each group of at
least two bookings. -/
def detect_all_conflicts (db : Db) : List ConflictRec :=
  let active := db.bookings.filter fun b => !(isTerminal b.status)
  (groupByItem active).flatMap fun g =>
    if g.2.length < 2 then [] else emitPairs db.items g.1 g.2

/-! ## Route optimizer (`services/route_optimizer.py`) -/

/-- A `Stop` of the optimizer: address, type, owning booking, and the
coordinates produced by geocoding the address at construction time
(`self.coords = geocode_address(address)`).  The constant
`(time(9,0), time(17,0))` time window is never read and is elided. -/
structure OptStop where
  address : String
  stop_type : String
  booking_id : String
  coords : Option (ℚ × ℚ)
deriving DecidableEq, Repr

/-- `Stop.__init__`, with the geocoder passed explicitly. -/
def mkStop (geo : String → Option (ℚ × ℚ)) (address stop_type booking_id : String) :
    OptStop :=
  { address := address, stop_type := stop_type, booking_id := booking_id
    coords := geo address }

/-- A `DriverRoute`: the driver's stops for one date plus the running total
distance maintained by `_recalculate_distance`. -/
structure OptRoute where
  driver_id : String
  driver_name : String
  date : Nat
  stops : List OptStop
  total_distance : ℚ
deriving DecidableEq, Repr

/-- `DriverRoute._recalculate_distance`: sum the distances between
consecutive stops that both have coordinates (0 for fewer than 2 stops). -/
def routeDistance (dist : (ℚ × ℚ) → (ℚ × ℚ) → ℚ) (stops : List OptStop) : ℚ :=
  if stops.length < 2 then 0
  else
    (stops.zip stops.tail).foldl
      (fun total p =>
        match p.1.coords, p.2.coords with
        | some c1, some c2 => total + dist c1 c2
        | _, _ => total)
      0

/-- `DriverRoute.add_stop`: append the stop and recalculate the distance. -/
def addStop (dist : (ℚ × ℚ) → (ℚ × ℚ) → ℚ) (route : OptRoute) (s : OptStop) :
    OptRoute :=
  let stops := route.stops ++ [s]
  { route with stops := stops, total_distance := routeDistance dist stops }

/-- Loop body of `build_driver_route` for one booking: add a delivery
stop when the driver is the delivery driver and the delivery date matches,
and a pickup stop when the driver is the pickup driver and the pickup date
matches.  No status filter is applied. -/
def buildStep (geo : String → Option (ℚ × ℚ)) (dist : (ℚ × ℚ) → (ℚ × ℚ) → ℚ)
    (driver : DriverRec) (date : Nat) (route : OptRoute) (b : BookingRec) :
    OptRoute :=
  let route :=
    if b.delivery_driver_id == some driver.id && b.delivery_date == date then
      addStop dist route (mkStop geo b.delivery_address "delivery" b.booking_id)
    else route
  if b.pickup_driver_id == some driver.id && b.pickup_date == date then
    addStop dist route (mkStop geo b.delivery_address "pickup" b.booking_id)
  else route

/-- `build_driver_route(driver, bookings, date)`: scan all bookings in
order, adding the matching delivery and pickup stops. -/
def build_driver_route (geo : String → Option (ℚ × ℚ))
    (dist : (ℚ × ℚ) → (ℚ × ℚ) → ℚ) (driver : DriverRec)
    (bookings : List BookingRec) (date : Nat) : OptRoute :=
  bookings.foldl (buildStep geo dist driver date)
    { driver_id := driver.id, driver_name := driver.name, date := date
      stops := [], total_distance := 0 }

/-- The insertion-cost candidates scanned by `calculate_route_disruption`
for a route of at least two stops: for each adjacent pair with coordinates,
`dist(prev, new) + dist(new, next) - dist(prev, next)`; for the final stop
with coordinates, `dist(last, new)` (insertion at the end). -/
def disruptionCands (dist : (ℚ × ℚ) → (ℚ × ℚ) → ℚ) (newc : ℚ × ℚ) :
    List OptStop → List ℚ
  | [] => []
  | [s] =>
      match s.coords with
      | some c => [dist c newc]
      | none => []
  | s1 :: s2 :: rest =>
      (match s1.coords, s2.coords with
       | some c1, some c2 => [dist c1 newc + dist newc c2 - dist c1 c2]
       | _, _ => []) ++ disruptionCands dist newc (s2 :: rest)

/-- Python's `min_added_distance` accumulation starting from `float("inf")`
(`none` models infinity; any finite candidate beats it). -/
def foldMinQ (cs : List ℚ) : Option ℚ :=
  cs.foldl
    (fun m c =>
      some (match m with
            | none => c
            | some q => min q c))
    none

/-- `calculate_route_disruption(route, new_address)`: `none` models the
source returning `float("inf")`.  Empty route: 0.  One stop: distance to
that stop (infinity when it has no coordinates).  Two or more stops:
minimum insertion cost over the candidates, clamped to be nonnegative
(`max(0.0, min_added_distance)`). -/
def calculate_route_disruption (geo : String → Option (ℚ × ℚ))
    (dist : (ℚ × ℚ) → (ℚ × ℚ) → ℚ) (route : OptRoute) (new_address : String) :
    Option ℚ :=
  match geo new_address with
  | none => none
  | some newc =>
      match route.stops with
      | [] => some 0
      | [s] =>
          match s.coords with
          | some c => some (dist c newc)
          | none => none
      | stops => (foldMinQ (disruptionCands dist newc stops)).map fun q => max 0 q

/-- `calculate_distance_to_address(route, target_address)`: `none` models
`float("inf")`.  0 for an empty route, otherwise the minimum distance from
the target to any stop with coordinates (infinity when none has any). -/
def calculate_distance_to_address (geo : String → Option (ℚ × ℚ))
    (dist : (ℚ × ℚ) → (ℚ × ℚ) → ℚ) (route : OptRoute) (target_address : String) :
    Option ℚ :=
  match geo target_address with
  | none => none
  | some tc =>
      if route.stops.length = 0 then some 0
      else
        route.stops.foldl
          (fun m s =>
            match s.coords with
            | some c =>
                some (match m with
                      | none => dist c tc
                      | some q => min q (dist c tc))
            | none => m)
          none

/-- `has_time_conflict(route, delivery_date, pickup_date)`: the driver is
at capacity when the delivery date is the route's date and the route
already has 8 or more stops.  `pickup_date` is accepted and ignored,
as in the source. -/
def has_time_conflict (route : OptRoute) (delivery_date : Nat)
    (pickup_date : Option Nat) : Bool :=
  delivery_date == route.date && 8 ≤ route.stops.length

/-- The branch structure of the human-readable `reason` string; the
numeric `"%.1f"` formatting of the source is elided, each constructor
keeps the branch's data. -/
inductive RecReason where
  | fresh_route
  | minimal_disruption (added : ℚ)
  | close_to_route (away : ℚ)
  | generic (stops : Nat) (added : ℚ)
deriving DecidableEq, Repr

/-- `reason` generation in `recommend_drivers`. -/
def mkReason (nstops : Nat) (disruption distance : ℚ) : RecReason :=
  if nstops == 0 then RecReason.fresh_route
  else if disruption < 2 then RecReason.minimal_disruption disruption
  else if distance < 5 then RecReason.close_to_route distance
  else RecReason.generic nstops disruption

/-- A `DriverRecommendation`. -/
structure DriverRecommendation where
  driver_id : String
  driver_name : String
  score : ℚ
  distance_to_delivery : ℚ
  route_disruption : ℚ
  current_stops : Nat
  reason : RecReason
deriving DecidableEq, Repr

/-- The recommendation record built in the loop body of
`recommend_drivers`, including the score
`(disruption * 0.6) + (distance * 0.4) + len(route.stops) * 0.5`. -/
def mkRecommendation (driver : DriverRec) (route : OptRoute)
    (disruption distance : ℚ) : DriverRecommendation :=
  { driver_id := driver.id
    driver_name := driver.name
    score := disruption * 0.6 + distance * 0.4 + (route.stops.length : ℚ) * 0.5
    distance_to_delivery := distance
    route_disruption := disruption
    current_stops := route.stops.length
    reason := mkReason route.stops.length disruption distance }

/-- The new booking dict handed to `recommend_drivers`; `.get` calls are
modelled with `Option` fields. -/
structure NewBooking where
  delivery_date : Option Nat
  pickup_date : Option Nat
  delivery_address : Option String
deriving DecidableEq, Repr

/-- Loop body of `recommend_drivers` for one driver: skip inactive
drivers, drivers at capacity, and drivers whose disruption or proximity is
infinite; otherwise append the scored recommendation. -/
def recStep (geo : String → Option (ℚ × ℚ)) (dist : (ℚ × ℚ) → (ℚ × ℚ) → ℚ)
    (bookings : List BookingRec) (delivery_date : Nat) (pickup_date : Option Nat)
    (delivery_address : String) (acc : List DriverRecommendation)
    (driver : DriverRec) : List DriverRecommendation :=
  if !driver.is_active then acc
  else
    let route := build_driver_route geo dist driver bookings delivery_date
    if has_time_conflict route delivery_date pickup_date then acc
    else
      match calculate_route_disruption geo dist route delivery_address,
            calculate_distance_to_address geo dist route delivery_address with
      | some disruption, some distance =>
          acc ++ [mkRecommendation driver route disruption distance]
      | _, _ => acc

/-- Score comparison used to sort recommendations ascending. -/
def recLE (a b : DriverRecommendation) : Prop := a.score ≤ b.score

instance : DecidableRel recLE := fun a b =>
  inferInstanceAs (Decidable (a.score ≤ b.score))

instance : IsTotal DriverRecommendation recLE :=
  ⟨fun a b => le_total a.score b.score⟩

instance : IsTrans DriverRecommendation recLE :=
  ⟨fun _ _ _ hab hbc => le_trans hab hbc⟩

/-- `recommend_drivers(drivers, bookings, new_booking, max_recommendations)`:
return `[]` when the new booking lacks a delivery date or address (Python
falsiness: missing key or empty string), otherwise score every eligible
driver, sort ascending by score (Python's stable sort is modelled by
insertion sort) and keep the first `max_recommendations`. -/
def recommend_drivers (geo : String → Option (ℚ × ℚ))
    (dist : (ℚ × ℚ) → (ℚ × ℚ) → ℚ) (drivers : List DriverRec)
    (bookings : List BookingRec) (new_booking : NewBooking)
    (max_recommendations : Nat) : List DriverRecommendation :=
  match new_booking.delivery_date, new_booking.delivery_address with
  | some delivery_date, some delivery_address =>
      if delivery_address.isEmpty then []
      else
        let recommendations := drivers.foldl
          (recStep geo dist bookings delivery_date new_booking.pickup_date
            delivery_address)
          []
        (recommendations.insertionSort recLE).take max_recommendations
  | _, _ => []

/-! ## Nearest-neighbor optimizer (`api/routes.py`, `nearest_neighbor_route`)

The stop dicts carry booking data plus `latitude`/`longitude` columns that
may be `NULL`; the algorithm reads only the coordinates and removes stops
by equality, so the record keeps an identifying `booking_id`.  The
haversine helper `calculate_distance(lat1, lon1, lat2, lon2)` is
abstracted as the parameter `dist4`. -/

structure RouteStop where
  booking_id : String
  latitude : Option ℚ
  longitude : Option ℚ
deriving DecidableEq, Repr

/-- Python truthiness of `stop['latitude']` / `stop['longitude']`:
falsy when the column is `NULL` or the number is exactly 0. -/
def coordTruthy : Option ℚ → Bool
  | none => false
  | some q => !(q == 0)

/-- A stop passes the `if stop['latitude'] and stop['longitude']` guard. -/
def stopTruthy (s : RouteStop) : Bool :=
  coordTruthy s.latitude && coordTruthy s.longitude

/-- Distance from the current position to a (truthy) stop. -/
def stopDist (dist4 : ℚ → ℚ → ℚ → ℚ → ℚ) (cla clo : ℚ) (s : RouteStop) : ℚ :=
  dist4 cla clo (s.latitude.getD 0) (s.longitude.getD 0)

/-- The inner `for stop in remaining` selection loop: track the nearest
stop and its distance (`none` models the initial `float('inf')`), replace
on strictly smaller distance, skip stops without truthy coordinates. -/
def findNearest (dist4 : ℚ → ℚ → ℚ → ℚ → ℚ) (cla clo : ℚ)
    (remaining : List RouteStop) : Option RouteStop :=
  (remaining.foldl
    (fun (acc : Option RouteStop × Option ℚ) stop =>
      if stopTruthy stop then
        let d := stopDist dist4 cla clo stop
        match acc.2 with
        | none => (some stop, some d)
        | some m => if d < m then (some stop, some d) else acc
      else acc)
    (none, none)).1

/-- The `while remaining` loop.  Each iteration either removes exactly one
stop from `remaining` or terminates, so running it with
`fuel = remaining.length` is exact: the fuel can only run out once
`remaining` is empty, in which case returning `remaining` returns `[]`. -/
def nnGo (dist4 : ℚ → ℚ → ℚ → ℚ → ℚ) :
    Nat → List RouteStop → ℚ → ℚ → List RouteStop
  | 0, remaining, _, _ => remaining
  | fuel + 1, remaining, cla, clo =>
      if remaining.isEmpty then []
      else
        match findNearest dist4 cla clo remaining with
        | some nearest =>
            nearest ::
              nnGo dist4 fuel (remaining.erase nearest)
                (nearest.latitude.getD 0) (nearest.longitude.getD 0)
        | none => remaining

/-- `nearest_neighbor_route(stops, start_lat, start_lon)`. -/
def nearest_neighbor_route (dist4 : ℚ → ℚ → ℚ → ℚ → ℚ)
    (stops : List RouteStop) (start_lat start_lon : ℚ) : List RouteStop :=
  nnGo dist4 stops.length stops start_lat start_lon

/-- Specification-side selection, following the words of the spec: among
the remaining stops with usable coordinates, the geographically nearest
one to the current position, ties broken in favor of the
first-encountered stop — which is exactly `List.argmin` over the filtered
candidates. -/
def specNearest (dist4 : ℚ → ℚ → ℚ → ℚ → ℚ) (cla clo : ℚ)
    (remaining : List RouteStop) : Option RouteStop :=
  (remaining.filter stopTruthy).argmin (stopDist dist4 cla clo)

/-- Specification-side greedy loop: append the nearest usable stop and
advance to it; as soon as no remaining stop has usable coordinates, append
every remaining stop in its original relative order. -/
def nnSpecGo (dist4 : ℚ → ℚ → ℚ → ℚ → ℚ) :
    Nat → List RouteStop → ℚ → ℚ → List RouteStop
  | 0, remaining, _, _ => remaining
  | fuel + 1, remaining, cla, clo =>
      if remaining.isEmpty then []
      else
        match specNearest dist4 cla clo remaining with
        | some s =>
            s :: nnSpecGo dist4 fuel (remaining.erase s)
              (s.latitude.getD 0) (s.longitude.getD 0)
        | none => remaining

/-- Specification-side nearest-neighbor route, compared against the source
translation in the theorem for the greedy-order claim. -/
def nnRouteSpec (dist4 : ℚ → ℚ → ℚ → ℚ → ℚ) (stops : List RouteStop)
    (start_lat start_lon : ℚ) : List RouteStop :=
  nnSpecGo dist4 stops.length stops start_lat start_lon

/-! ## Driver day route (`api/drivers.py`, `get_driver_route`) -/

/-- Per-item info on a customer-pickup stop: the return warehouse and
whether a next booking exists for the item after the route date. -/
structure PickupItemInfo where
  name : String
  return_warehouse_id : Option String
  has_next_booking : Bool
  next_booking_date : Option Nat
deriving DecidableEq, Repr

/-- One stop of the day route; the four constructors mirror the four stop
types.  Customer-facing payload fields that no claim reads (phone, time
window, instructions, coordinates) are elided. -/
inductive DayStop where
  | warehouse_pickup (stop_number : Nat) (warehouse_id : String)
      (items : List (String × String))
  | delivery (stop_number : Nat) (booking_id : String) (order_number : String)
      (items : List String) (delivery_fee : ℚ) (tip : ℚ)
  | pickup (stop_number : Nat) (booking_id : String) (order_number : String)
      (items : List PickupItemInfo)
  | warehouse_return (stop_number : Nat) (warehouse_id : String)
      (items : List (String × String))
deriving DecidableEq, Repr

/-- The response of `get_driver_route`: the four stop groups plus totals. -/
structure DayRouteResult where
  driver_id : String
  driver_name : String
  total_stops : Nat
  total_earnings : ℚ
  warehouse_pickups : List DayStop
  deliveries : List DayStop
  pickups : List DayStop
  warehouse_returns : List DayStop
deriving DecidableEq, Repr

/-- `find_next_booking(db, item_id, after_date)`: the earliest
non-cancelled booking reserving the item with `delivery_date > after_date`
(note: only CANCELLED is excluded here, not COMPLETED).  The SQL
`ORDER BY delivery_date ASC ... first()` is modelled as the first booking
with minimal delivery date. -/
def find_next_booking (db : Db) (item_id : String) (after_date : Nat) :
    Option BookingRec :=
  (db.bookings.filter fun b =>
      b.booking_items.any (fun bi => bi.inventory_item_id == item_id)
        && after_date < b.delivery_date
        && !(b.status == BookingStatus.cancelled)).argmin
    (fun b => b.delivery_date)

/-- Warehouse grouping used for stages 1 and 4: for each booking and each
of its items with the selected warehouse id, append
`(item name, order number)` under that warehouse. -/
def groupByWarehouse (db : Db) (bs : List BookingRec)
    (sel : BookingItemRec → Option String) : List (String × List (String × String)) :=
  bs.foldl
    (fun gs b =>
      b.booking_items.foldl
        (fun gs2 bi =>
          match sel bi with
          | some wid => addToGroup gs2 wid (itemName db.items bi.inventory_item_id, b.order_number)
          | none => gs2)
        gs)
    []

/-- `get_driver_route(driver, route_date)`: deliveries are the bookings
with this assigned driver and matching delivery date, pickups those with
this pickup driver and matching pickup date — with NO status filter.
The four stages are numbered by a running counter; earnings sum
`delivery_fee + tip` over the delivery bookings only. -/
def get_driver_route (db : Db) (driver : DriverRec) (route_date : Nat) :
    DayRouteResult :=
  let deliveries := db.bookings.filter fun b =>
    b.delivery_driver_id == some driver.id && b.delivery_date == route_date
  let pickups := db.bookings.filter fun b =>
    b.pickup_driver_id == some driver.id && b.pickup_date == route_date
  let warehouse_pickup_groups :=
    groupByWarehouse db deliveries (fun bi => bi.pickup_warehouse_id)
  let wpStops := warehouse_pickup_groups.enum.map fun gi =>
    DayStop.warehouse_pickup (1 + gi.1) gi.2.1 gi.2.2
  let n1 := 1 + wpStops.length
  let dStops := deliveries.enum.map fun bi =>
    DayStop.delivery (n1 + bi.1) bi.2.booking_id bi.2.order_number
      (bi.2.booking_items.map fun x => itemName db.items x.inventory_item_id)
      bi.2.delivery_fee bi.2.tip
  let n2 := n1 + dStops.length
  let pStops := pickups.enum.map fun bi =>
    DayStop.pickup (n2 + bi.1) bi.2.booking_id bi.2.order_number
      (bi.2.booking_items.map fun x =>
        let nextb := find_next_booking db x.inventory_item_id route_date
        { name := itemName db.items x.inventory_item_id
          return_warehouse_id := x.return_warehouse_id
          has_next_booking := nextb.isSome
          next_booking_date := nextb.map fun b => b.delivery_date })
  let n3 := n2 + pStops.length
  let warehouse_return_groups :=
    groupByWarehouse db pickups (fun bi => bi.return_warehouse_id)
  let wrStops := warehouse_return_groups.enum.map fun gi =>
    DayStop.warehouse_return (n3 + gi.1) gi.2.1 gi.2.2
  let total_earnings := deliveries.foldl (fun t b => t + (b.delivery_fee + b.tip)) 0
  { driver_id := driver.id
    driver_name := driver.name
    total_stops := wpStops.length + dStops.length + pStops.length + wrStops.length
    total_earnings := total_earnings
    warehouse_pickups := wpStops
    deliveries := dStops
    pickups := pStops
    warehouse_returns := wrStops }

/-! ## Concrete fixtures used by witnesses and counterexamples -/

/-- A geocoder that fails on every address. -/
def geoNone : String → Option (ℚ × ℚ) := fun _ => none

/-- A degenerate distance function; any value works for claims that only
count stops. -/
def distZero : (ℚ × ℚ) → (ℚ × ℚ) → ℚ := fun _ _ => 0

/-- Concrete driver. -/
def drvA : DriverRec := { id := "drv-1", name := "Alice", is_active := true }

/-- A cancelled booking assigned to `drvA` for delivery on day 5. -/
def bCancelled : BookingRec :=
  { booking_id := "b-1", order_number := "PR-1000", customer_name := "Cara"
    status := BookingStatus.cancelled, delivery_date := 5, pickup_date := 6
    delivery_address := "1 Main St", delivery_driver_id := some "drv-1"
    pickup_driver_id := none, booking_items := [], delivery_fee := 50, tip := 10 }

/-! ## Helper lemmas -/

/-- Filtering by the non-terminal predicate is absorbed by any stronger
filter that already requires non-terminality. -/
theorem filter_nonterm_absorb (P : BookingRec → Bool) :
    ∀ bs : List BookingRec,
      (bs.filter fun b => !(isTerminal b.status)).filter
          (fun b => !(isTerminal b.status) && P b)
        = bs.filter (fun b => !(isTerminal b.status) && P b) := by
  intro bs
  induction bs with
  | nil => rfl
  | cons b t ih =>
      by_cases h : isTerminal b.status
      · simp [List.filter_cons, h, ih]
      · simp [List.filter_cons, h, ih]

/-- The non-terminal filter is idempotent. -/
theorem filter_nonterm_idem :
    ∀ bs : List BookingRec,
      (bs.filter fun b => !(isTerminal b.status)).filter
          (fun b => !(isTerminal b.status))
        = bs.filter fun b => !(isTerminal b.status) := by
  intro bs
  induction bs with
  | nil => rfl
  | cons b t ih =>
      by_cases h : isTerminal b.status
      · simp [List.filter_cons, h, ih]
      · simp [List.filter_cons, h, ih]

/-! ## Claims -/

/-- C1 (amended): cancelled/completed bookings contribute nothing to
conflict detection and availability checking — both `detect_all_conflicts`
and `check_availability` compute the same result when terminal bookings
are removed from the booking set.  (The route-building half of the
original claim is false; see the counterexample.) -/
theorem terminal_excluded_from_conflicts_and_availability
    (bs : List BookingRec) (its : List InventoryItemRec)
    (item_ids : List String) (d p : Nat) :
    detect_all_conflicts ⟨bs, its⟩ =
        detect_all_conflicts ⟨bs.filter (fun b => !(isTerminal b.status)), its⟩ ∧
    check_availability ⟨bs, its⟩ item_ids d p =
        check_availability ⟨bs.filter (fun b => !(isTerminal b.status)), its⟩ item_ids d p := by
  constructor
  · show detect_all_conflicts _ = detect_all_conflicts _
    dsimp only [detect_all_conflicts]
    rw [filter_nonterm_idem bs]
  · unfold check_availability
    rw [show (fun b : BookingRec =>
          !(isTerminal b.status) && b.delivery_date ≤ p && d ≤ b.pickup_date)
        = (fun b : BookingRec =>
          !(isTerminal b.status) && (b.delivery_date ≤ p && d ≤ b.pickup_date)) by
      funext b; cases isTerminal b.status <;> simp]
    rw [filter_nonterm_absorb (fun b => b.delivery_date ≤ p && d ≤ b.pickup_date) bs]

/-- C1 counterexample: a cancelled booking assigned to a driver on the
route date does change route building — `build_driver_route` gains a stop
and `get_driver_route` gains a delivery stop and its earnings, so routes
are NOT identical whether or not the cancelled booking is present. -/
theorem cancelled_booking_changes_routes :
    bCancelled.status = BookingStatus.cancelled ∧
    (build_driver_route geoNone distZero drvA [bCancelled] 5).stops ≠
      (build_driver_route geoNone distZero drvA [] 5).stops ∧
    (get_driver_route ⟨[bCancelled], []⟩ drvA 5).total_stops ≠
      (get_driver_route ⟨[], []⟩ drvA 5).total_stops ∧
    (get_driver_route ⟨[bCancelled], []⟩ drvA 5).total_earnings ≠
      (get_driver_route ⟨[], []⟩ drvA 5).total_earnings := by
  refine ⟨rfl, by decide, by decide, ?_⟩
  show (0 : ℚ) + (50 + 10) ≠ 0
  norm_num

/-- C3: `check_availability` is a total function returning structured
data: `available` is true exactly when the conflict list is empty, and
every requested item id that matches no inventory item contributes an
"Item not found" conflict entry. -/
theorem availability_structured (db : Db) (item_ids : List String) (d p : Nat) :
    ((check_availability db item_ids d p).available = true ↔
      (check_availability db item_ids d p).conflicts = []) ∧
    (∀ iid ∈ item_ids,
      (∀ it ∈ db.items, it.inventory_item_id ≠ iid) →
        AvailConflict.notFound iid ∈ (check_availability db item_ids d p).conflicts) := by
  constructor
  · show ((check_availability db item_ids d p).conflicts.length == 0) = true ↔ _
    simp [List.length_eq_zero]
  · intro iid hmem hnone
    have hfind : db.items.find? (fun it => it.inventory_item_id == iid) = none := by
      rw [List.find?_eq_none]
      intro it hit
      simpa using hnone it hit
    simp only [check_availability, List.mem_flatMap]
    exact ⟨iid, hmem, by simp [hfind]⟩

/-- Witness for the availability claim: a request for an unknown item id
against an empty database yields a "not found" conflict and the
iff between `available` and conflict emptiness. -/
theorem availability_structured_witness :
    (((check_availability ⟨[], []⟩ ["item-42"] 1 3).available = true ↔
       (check_availability ⟨[], []⟩ ["item-42"] 1 3).conflicts = []) ∧
     AvailConflict.notFound "item-42" ∈
       (check_availability ⟨[], []⟩ ["item-42"] 1 3).conflicts) := by
  have h := availability_structured ⟨[], []⟩ ["item-42"] 1 3
  exact ⟨h.1, h.2 "item-42" (by decide) (by intro it hit; simp at hit)⟩

/-- C2: for two non-terminal bookings reserving the same single inventory
item, the conflict detector reports a conflict, and the availability
checker reports the requested range unavailable, exactly when
`b1.delivery_date ≤ b2.pickup_date ∧ b2.delivery_date ≤ b1.pickup_date`
(inclusive interval overlap). -/
theorem overlap_flagged_iff (b1 b2 : BookingRec) (x : String)
    (its : List InventoryItemRec) (w1 w2 w3 w4 : Option String)
    (h1 : isTerminal b1.status = false) (h2 : isTerminal b2.status = false)
    (hb1 : b1.booking_items = [⟨x, w1, w2⟩])
    (hb2 : b2.booking_items = [⟨x, w3, w4⟩])
    (hx : (its.find? fun it => it.inventory_item_id == x).isSome) :
    (detect_all_conflicts ⟨[b1, b2], its⟩ ≠ [] ↔
      (b1.delivery_date ≤ b2.pickup_date ∧ b2.delivery_date ≤ b1.pickup_date)) ∧
    ((check_availability ⟨[b1], its⟩ [x] b2.delivery_date b2.pickup_date).available
        = false ↔
      (b1.delivery_date ≤ b2.pickup_date ∧ b2.delivery_date ≤ b1.pickup_date)) := by
  obtain ⟨it, hit⟩ := Option.isSome_iff_exists.mp hx
  constructor
  · have hd : detect_all_conflicts ⟨[b1, b2], its⟩ =
        if infoOverlap (mkConflictBInfo b1) (mkConflictBInfo b2) then
          [{ item_id := x, item_name := itemName its x
             booking1 := mkConflictBInfo b1, booking2 := mkConflictBInfo b2 }]
        else [] := by
      simp [detect_all_conflicts, groupByItem, addToGroup, emitPairs, h1, h2,
        hb1, hb2]
      by_cases hov : infoOverlap (mkConflictBInfo b1) (mkConflictBInfo b2)
        <;> simp [hov, List.filterMap_cons]
    rw [hd]
    by_cases hov : b1.delivery_date ≤ b2.pickup_date ∧ b2.delivery_date ≤ b1.pickup_date
    · simp [infoOverlap, mkConflictBInfo, hov.1, hov.2, hov]
    · have : infoOverlap (mkConflictBInfo b1) (mkConflictBInfo b2) = false := by
        simp only [infoOverlap, mkConflictBInfo]
        rw [Bool.and_eq_false_iff]
        rcases Decidable.not_and_iff_or_not.mp hov with h | h
        · exact Or.inl (by simpa using h)
        · exact Or.inr (by simpa using h)
      simp [this, hov]
  · have hc : (check_availability ⟨[b1], its⟩ [x] b2.delivery_date b2.pickup_date).conflicts
        = if b1.delivery_date ≤ b2.pickup_date && b2.delivery_date ≤ b1.pickup_date then
            [AvailConflict.overlap x it.name b1.order_number
              b1.delivery_date b1.pickup_date]
          else [] := by
      by_cases hov1 : b1.delivery_date ≤ b2.pickup_date
        <;> by_cases hov2 : b2.delivery_date ≤ b1.pickup_date
        <;> simp [check_availability, h1, hov1, hov2, hit, hb1]
    have hav : (check_availability ⟨[b1], its⟩ [x] b2.delivery_date b2.pickup_date).available
        = ((check_availability ⟨[b1], its⟩ [x] b2.delivery_date b2.pickup_date).conflicts.length
            == 0) := rfl
    rw [hav, hc]
    by_cases hov1 : b1.delivery_date ≤ b2.pickup_date
      <;> by_cases hov2 : b2.delivery_date ≤ b1.pickup_date
      <;> simp [hov1, hov2]

/-- Non-terminal booking with a single item, used by overlap witnesses. -/
def mkSimpleBooking (bid onum : String) (d p : Nat) : BookingRec :=
  { booking_id := bid, order_number := onum, customer_name := "Cara"
    status := BookingStatus.confirmed, delivery_date := d, pickup_date := p
    delivery_address := "1 Main St", delivery_driver_id := none
    pickup_driver_id := none
    booking_items := [⟨"item-1", none, none⟩], delivery_fee := 50, tip := 0 }

/-- Witness for the overlap claim at the boundary-day scenario of the
spec: ranges [20, 22] and [22, 24] on the same item share only day 22 and
are flagged as conflicting by both functions. -/
theorem overlap_flagged_iff_witness :
    (detect_all_conflicts
        ⟨[mkSimpleBooking "b1" "PR-1" 20 22, mkSimpleBooking "b2" "PR-2" 22 24],
         [⟨"item-1", "Bounce House Castle"⟩]⟩ ≠ [] ↔ (20 ≤ 24 ∧ 22 ≤ 22)) ∧
    ((check_availability ⟨[mkSimpleBooking "b1" "PR-1" 20 22],
         [⟨"item-1", "Bounce House Castle"⟩]⟩ ["item-1"] 22 24).available = false ↔
      (20 ≤ 24 ∧ 22 ≤ 22)) :=
  overlap_flagged_iff (mkSimpleBooking "b1" "PR-1" 20 22)
    (mkSimpleBooking "b2" "PR-2" 22 24) "item-1"
    [⟨"item-1", "Bounce House Castle"⟩] none none none none
    (by decide) (by decide) rfl rfl (by decide)

/-- Folding the grouping step over bookings that all reserve exactly the
single item `x` extends the single `x` group in order. -/
theorem groupByItem_fold_single (x : String) :
    ∀ (bs : List BookingRec) (l : List ConflictBInfo),
      (∀ b ∈ bs, ∃ wa wb, b.booking_items = [⟨x, wa, wb⟩]) →
      bs.foldl
          (fun gs b =>
            b.booking_items.foldl
              (fun gs2 bi => addToGroup gs2 bi.inventory_item_id (mkConflictBInfo b))
              gs)
          [(x, l)]
        = [(x, l ++ bs.map mkConflictBInfo)] := by
  intro bs
  induction bs with
  | nil => intro l _; simp
  | cons b t ih =>
      intro l hall
      obtain ⟨wa, wb, hb⟩ := hall b (List.mem_cons_self b t)
      have step : b.booking_items.foldl
          (fun gs2 bi => addToGroup gs2 bi.inventory_item_id (mkConflictBInfo b))
          [(x, l)] = [(x, l ++ [mkConflictBInfo b])] := by
        simp [hb, addToGroup]
      simp only [List.foldl_cons, step]
      rw [ih (l ++ [mkConflictBInfo b]) (fun b' hb' => hall b' (List.mem_cons_of_mem b hb'))]
      simp

/-- With every booking reserving exactly the single item `x`, the grouping
dict has the single key `x` holding all bookings in order. -/
theorem groupByItem_single (x : String) (bs : List BookingRec)
    (hne : bs ≠ [])
    (hitems : ∀ b ∈ bs, ∃ wa wb, b.booking_items = [⟨x, wa, wb⟩]) :
    groupByItem bs = [(x, bs.map mkConflictBInfo)] := by
  match bs, hne with
  | b :: t, _ =>
      obtain ⟨wa, wb, hb⟩ := hitems b (List.mem_cons_self b t)
      have step : b.booking_items.foldl
          (fun gs2 bi => addToGroup gs2 bi.inventory_item_id (mkConflictBInfo b))
          ([] : List (String × List ConflictBInfo))
          = [(x, [mkConflictBInfo b])] := by
        simp [hb, addToGroup]
      simp only [groupByItem, List.foldl_cons, step]
      rw [groupByItem_fold_single x t [mkConflictBInfo b]
        (fun b' hb' => hitems b' (List.mem_cons_of_mem b hb'))]
      simp

/-- When the head overlaps every element of the tail, the head's filterMap
emits one conflict per tail element. -/
theorem filterMap_overlap_length (its : List InventoryItemRec) (x : String)
    (i : ConflictBInfo) :
    ∀ l : List ConflictBInfo, (∀ j ∈ l, infoOverlap i j = true) →
      (l.filterMap fun b2 =>
          if infoOverlap i b2 then
            some (ConflictRec.mk x (itemName its x) i b2)
          else none).length = l.length := by
  intro l
  induction l with
  | nil => intro _; rfl
  | cons j t ih =>
      intro hall
      have hj := hall j (List.mem_cons_self j t)
      simp only [List.filterMap_cons, hj, if_pos, List.length_cons]
      rw [ih (fun j' hj' => hall j' (List.mem_cons_of_mem j hj'))]

/-- Triangular-number recurrence used to count conflict pairs. -/
theorem triangular_step (n : Nat) : n + n * (n - 1) / 2 = (n + 1) * n / 2 := by
  cases n with
  | zero => rfl
  | succ m =>
      rw [Nat.succ_sub_one]
      have h2 : (m + 1 + 1) * (m + 1) = (m + 1) * m + (m + 1) * 2 := by ring
      rw [h2, Nat.add_mul_div_right _ _ (by norm_num : (0 : ℕ) < 2)]
      omega

/-- Pairwise-overlapping groups emit exactly `n * (n - 1) / 2` conflicts. -/
theorem emitPairs_length (its : List InventoryItemRec) (x : String) :
    ∀ l : List ConflictBInfo, l.Pairwise (fun a b => infoOverlap a b = true) →
      (emitPairs its x l).length = l.length * (l.length - 1) / 2 := by
  intro l
  induction l with
  | nil => intro _; rfl
  | cons i t ih =>
      intro hp
      rw [List.pairwise_cons] at hp
      simp only [emitPairs, List.length_append]
      rw [filterMap_overlap_length its x i t hp.1, ih hp.2]
      simp only [List.length_cons, Nat.add_sub_cancel]
      exact triangular_step t.length

/-- C4: for `N ≥ 2` non-terminal bookings that all reserve the same single
inventory item with pairwise-overlapping date ranges,
`detect_all_conflicts` returns exactly `N * (N - 1) / 2` conflict records. -/
theorem conflict_pair_count (x : String) (its : List InventoryItemRec)
    (bs : List BookingRec) (hlen : 2 ≤ bs.length)
    (hstat : ∀ b ∈ bs, isTerminal b.status = false)
    (hitems : ∀ b ∈ bs, ∃ wa wb, b.booking_items = [⟨x, wa, wb⟩])
    (hover : bs.Pairwise (fun b1 b2 =>
      b1.delivery_date ≤ b2.pickup_date ∧ b2.delivery_date ≤ b1.pickup_date)) :
    (detect_all_conflicts ⟨bs, its⟩).length = bs.length * (bs.length - 1) / 2 := by
  have hfilter : bs.filter (fun b => !(isTerminal b.status)) = bs := by
    rw [List.filter_eq_self]
    intro b hb
    simp [hstat b hb]
  have hne : bs ≠ [] := by
    intro h
    rw [h] at hlen
    exact absurd hlen (by decide)
  have hgroup := groupByItem_single x bs hne hitems
  have hmap : (bs.map mkConflictBInfo).Pairwise (fun a b => infoOverlap a b = true) := by
    refine List.Pairwise.map mkConflictBInfo (fun a b hab => ?_) hover
    simp [infoOverlap, mkConflictBInfo, hab.1, hab.2]
  show (detect_all_conflicts ⟨bs, its⟩).length = _
  dsimp only [detect_all_conflicts]
  rw [hfilter, hgroup]
  have hnotlt : ¬ ((bs.map mkConflictBInfo).length < 2) := by
    rw [List.length_map]
    omega
  simp only [List.flatMap_cons, List.flatMap_nil, List.append_nil, hnotlt, if_false]
  rw [emitPairs_length its x (bs.map mkConflictBInfo) hmap]
  rw [List.length_map]

/-- Witness for the conflict-count claim: three mutually overlapping
bookings on one item yield exactly `3 * 2 / 2 = 3` conflicts. -/
theorem conflict_pair_count_witness :
    (detect_all_conflicts
        ⟨[mkSimpleBooking "b1" "PR-1" 20 25, mkSimpleBooking "b2" "PR-2" 21 26,
          mkSimpleBooking "b3" "PR-3" 22 27], []⟩).length = 3 * (3 - 1) / 2 :=
  conflict_pair_count "item-1" []
    [mkSimpleBooking "b1" "PR-1" 20 25, mkSimpleBooking "b2" "PR-2" 21 26,
     mkSimpleBooking "b3" "PR-3" 22 27]
    (by decide) (by decide)
    (by
      intro b hb
      fin_cases hb <;> exact ⟨none, none, rfl⟩)
    (by decide)

/-- `addStop` keeps the route's date. -/
theorem addStop_date (dist : (ℚ × ℚ) → (ℚ × ℚ) → ℚ) (route : OptRoute)
    (s : OptStop) : (addStop dist route s).date = route.date := rfl

/-- `buildStep` keeps the route's date. -/
theorem buildStep_date (geo : String → Option (ℚ × ℚ))
    (dist : (ℚ × ℚ) → (ℚ × ℚ) → ℚ) (driver : DriverRec) (date : Nat)
    (route : OptRoute) (b : BookingRec) :
    (buildStep geo dist driver date route b).date = route.date := by
  unfold buildStep
  dsimp only
  split <;> split <;> rfl

/-- The route built for a date carries that date. -/
theorem build_route_date (geo : String → Option (ℚ × ℚ))
    (dist : (ℚ × ℚ) → (ℚ × ℚ) → ℚ) (driver : DriverRec)
    (bookings : List BookingRec) (date : Nat) :
    (build_driver_route geo dist driver bookings date).date = date := by
  unfold build_driver_route
  suffices h : ∀ (bs : List BookingRec) (route : OptRoute),
      (bs.foldl (buildStep geo dist driver date) route).date = route.date by
    exact h bookings _
  intro bs
  induction bs with
  | nil => intro route; rfl
  | cons b t ih =>
      intro route
      rw [List.foldl_cons, ih, buildStep_date]

/-- Everything true of a recommendation produced for driver `d` inside the
`recommend_drivers` loop: the driver was active and under capacity, both
metrics were finite, and the record is the scored one. -/
def recOk (geo : String → Option (ℚ × ℚ)) (dist : (ℚ × ℚ) → (ℚ × ℚ) → ℚ)
    (bookings : List BookingRec) (dd : Nat) (pd : Option Nat) (addr : String)
    (d : DriverRec) (r : DriverRecommendation) : Prop :=
  d.is_active = true ∧
  has_time_conflict (build_driver_route geo dist d bookings dd) dd pd = false ∧
  ∃ dq pq,
    calculate_route_disruption geo dist (build_driver_route geo dist d bookings dd)
      addr = some dq ∧
    calculate_distance_to_address geo dist (build_driver_route geo dist d bookings dd)
      addr = some pq ∧
    r = mkRecommendation d (build_driver_route geo dist d bookings dd) dq pq

/-- A recommendation found after one loop step was already accumulated or
was produced, with `recOk`, for this driver. -/
theorem mem_recStep (geo : String → Option (ℚ × ℚ))
    (dist : (ℚ × ℚ) → (ℚ × ℚ) → ℚ) (bookings : List BookingRec) (dd : Nat)
    (pd : Option Nat) (addr : String) (acc : List DriverRecommendation)
    (d : DriverRec) (r : DriverRecommendation) :
    r ∈ recStep geo dist bookings dd pd addr acc d →
      r ∈ acc ∨ recOk geo dist bookings dd pd addr d r := by
  unfold recStep
  dsimp only
  split
  · exact fun h => Or.inl h
  next hact =>
    split
    · exact fun h => Or.inl h
    next hconf =>
      split
      next dq pq hdis hdist =>
        intro h
        rcases List.mem_append.mp h with h | h
        · exact Or.inl h
        · right
          refine ⟨by simpa using hact, by simpa using hconf, dq, pq, hdis, hdist, ?_⟩
          simpa using h
      next => exact fun h => Or.inl h

/-- A recommendation in the folded accumulator was already there or was
produced for one of the scanned drivers. -/
theorem mem_foldl_recStep (geo : String → Option (ℚ × ℚ))
    (dist : (ℚ × ℚ) → (ℚ × ℚ) → ℚ) (bookings : List BookingRec) (dd : Nat)
    (pd : Option Nat) (addr : String) :
    ∀ (l : List DriverRec) (acc : List DriverRecommendation)
      (r : DriverRecommendation),
      r ∈ l.foldl (recStep geo dist bookings dd pd addr) acc →
        r ∈ acc ∨ ∃ d ∈ l, recOk geo dist bookings dd pd addr d r := by
  intro l
  induction l with
  | nil => intro acc r h; exact Or.inl h
  | cons d t ih =>
      intro acc r h
      rw [List.foldl_cons] at h
      rcases ih _ r h with h1 | ⟨d1, hd1, hok⟩
      · rcases mem_recStep geo dist bookings dd pd addr acc d r h1 with h2 | hok
        · exact Or.inl h2
        · exact Or.inr ⟨d, List.mem_cons_self d t, hok⟩
      · exact Or.inr ⟨d1, List.mem_cons_of_mem d hd1, hok⟩

/-- Characterization of the output of `recommend_drivers`: every returned
recommendation comes, via `recOk`, from one of the input drivers, and the
new booking had a delivery date and address. -/
theorem mem_recommend_drivers (geo : String → Option (ℚ × ℚ))
    (dist : (ℚ × ℚ) → (ℚ × ℚ) → ℚ) (drivers : List DriverRec)
    (bookings : List BookingRec) (nb : NewBooking) (maxr : Nat)
    (r : DriverRecommendation) :
    r ∈ recommend_drivers geo dist drivers bookings nb maxr →
      ∃ dd addr, nb.delivery_date = some dd ∧ nb.delivery_address = some addr ∧
        ∃ d ∈ drivers, recOk geo dist bookings dd nb.pickup_date addr d r := by
  cases hdd : nb.delivery_date with
  | none => simp [recommend_drivers, hdd]
  | some dd =>
      cases haddr : nb.delivery_address with
      | none => simp [recommend_drivers, hdd, haddr]
      | some addr =>
          simp only [recommend_drivers, hdd, haddr]
          split
          · simp
          · intro h
            have h1 : r ∈ drivers.foldl (recStep geo dist bookings dd
                nb.pickup_date addr) [] := by
              have h2 := List.take_subset maxr _ h
              exact (List.perm_insertionSort recLE _).mem_iff.mp h2
            rcases mem_foldl_recStep geo dist bookings dd nb.pickup_date addr
                drivers [] r h1 with h3 | h3
            · simp at h3
            · exact ⟨dd, addr, rfl, rfl, h3⟩

/-- C5: driver capacity is a hard disqualification — every returned
recommendation comes from an active driver whose route for the new
booking's delivery date has fewer than 8 stops — and the capacity check
does not exclude a driver with exactly 7 stops on that date. -/
theorem capacity_hard_disqualification (geo : String → Option (ℚ × ℚ))
    (dist : (ℚ × ℚ) → (ℚ × ℚ) → ℚ) (drivers : List DriverRec)
    (bookings : List BookingRec) (nb : NewBooking) (maxr : Nat) :
    (∀ r ∈ recommend_drivers geo dist drivers bookings nb maxr,
      ∃ d ∈ drivers, r.driver_id = d.id ∧ r.driver_name = d.name ∧
        ∃ dd, nb.delivery_date = some dd ∧
          r.current_stops = (build_driver_route geo dist d bookings dd).stops.length ∧
          (build_driver_route geo dist d bookings dd).stops.length < 8) ∧
    (∀ (route : OptRoute) (dd : Nat) (pd : Option Nat),
      route.date = dd → route.stops.length = 7 →
        has_time_conflict route dd pd = false) := by
  constructor
  · intro r hr
    obtain ⟨dd, addr, hdd, haddr, d, hd, hact, hconf, dq, pq, hdis, hdist, hrec⟩ :=
      mem_recommend_drivers geo dist drivers bookings nb maxr r hr
    refine ⟨d, hd, by rw [hrec]; rfl, by rw [hrec]; rfl, dd, hdd,
      by rw [hrec]; rfl, ?_⟩
    have hdate := build_route_date geo dist d bookings dd
    unfold has_time_conflict at hconf
    rw [hdate] at hconf
    simp only [beq_self_eq_true, Bool.true_and, decide_eq_false_iff_not] at hconf
    omega
  · intro route dd pd hdate hlen
    simp [has_time_conflict, hdate, hlen]

/-- Geocoder for the recommender witnesses. -/
def geoW : String → Option (ℚ × ℚ) := fun a =>
  if a = "new" then some (0, 0) else none

/-- Driver for the recommender witnesses. -/
def d1W : DriverRec := { id := "d1", name := "Dana", is_active := true }

/-- New booking for the recommender witnesses. -/
def nbW : NewBooking :=
  { delivery_date := some 5, pickup_date := some 6, delivery_address := some "new" }

/-- The single recommendation the witness scenario produces. -/
def recW : DriverRecommendation :=
  mkRecommendation d1W (build_driver_route geoW distZero d1W [] 5) 0 0

/-- In the witness scenario the recommender returns exactly `recW`. -/
theorem recW_mem : recW ∈ recommend_drivers geoW distZero [d1W] [] nbW 5 := by
  have h : recommend_drivers geoW distZero [d1W] [] nbW 5 = [recW] := rfl
  rw [h]
  exact List.mem_singleton.mpr rfl

/-- A 7-stop route on day 5, for the capacity-check witness. -/
def route7W : OptRoute :=
  { driver_id := "d1", driver_name := "Dana", date := 5
    stops := List.replicate 7 { address := "a", stop_type := "delivery"
                                booking_id := "b", coords := none }
    total_distance := 0 }

/-- Witness for the capacity claim: a recommended driver with 0 stops, and
a 7-stop route passing the capacity check. -/
theorem capacity_hard_disqualification_witness :
    (∃ d ∈ [d1W], recW.driver_id = d.id ∧ recW.driver_name = d.name ∧
      ∃ dd, nbW.delivery_date = some dd ∧
        recW.current_stops = (build_driver_route geoW distZero d [] dd).stops.length ∧
        (build_driver_route geoW distZero d [] dd).stops.length < 8) ∧
    has_time_conflict route7W 5 (some 6) = false :=
  ⟨(capacity_hard_disqualification geoW distZero [d1W] [] nbW 5).1 recW recW_mem,
   (capacity_hard_disqualification geoW distZero [d1W] [] nbW 5).2 route7W 5 (some 6)
     rfl (by decide)⟩

/-- C6: every returned recommendation's score is
`0.6 * disruption + 0.4 * proximity + 0.5 * stop count`, the returned list
is sorted ascending by score, and it has at most `max_recommendations`
entries. -/
theorem recommendation_score_sorted (geo : String → Option (ℚ × ℚ))
    (dist : (ℚ × ℚ) → (ℚ × ℚ) → ℚ) (drivers : List DriverRec)
    (bookings : List BookingRec) (nb : NewBooking) (maxr : Nat) :
    (∀ r ∈ recommend_drivers geo dist drivers bookings nb maxr,
      r.score = 0.6 * r.route_disruption + 0.4 * r.distance_to_delivery
        + 0.5 * (r.current_stops : ℚ)) ∧
    (recommend_drivers geo dist drivers bookings nb maxr).Sorted recLE ∧
    (recommend_drivers geo dist drivers bookings nb maxr).length ≤ maxr := by
  refine ⟨?_, ?_, ?_⟩
  · intro r hr
    obtain ⟨dd, addr, hdd, haddr, d, hd, hact, hconf, dq, pq, hdis, hdist, hrec⟩ :=
      mem_recommend_drivers geo dist drivers bookings nb maxr r hr
    rw [hrec]
    simp only [mkRecommendation]
    ring
  · cases hdd : nb.delivery_date with
    | none => simp [recommend_drivers, hdd]
    | some dd =>
        cases haddr : nb.delivery_address with
        | none => simp [recommend_drivers, hdd, haddr]
        | some addr =>
            simp only [recommend_drivers, hdd, haddr]
            split
            · exact List.sorted_nil
            · exact List.Pairwise.sublist (List.take_sublist _ _)
                (List.sorted_insertionSort recLE _)
  · cases hdd : nb.delivery_date with
    | none => simp [recommend_drivers, hdd]
    | some dd =>
        cases haddr : nb.delivery_address with
        | none => simp [recommend_drivers, hdd, haddr]
        | some addr =>
            simp only [recommend_drivers, hdd, haddr]
            split
            · simp
            · exact List.length_take_le maxr _

/-- Witness for the score claim, applied to the concrete scenario that
produces `recW`. -/
theorem recommendation_score_sorted_witness :
    recW.score = 0.6 * recW.route_disruption + 0.4 * recW.distance_to_delivery
        + 0.5 * (recW.current_stops : ℚ) ∧
    (recommend_drivers geoW distZero [d1W] [] nbW 5).Sorted recLE :=
  ⟨(recommendation_score_sorted geoW distZero [d1W] [] nbW 5).1 recW recW_mem,
   (recommendation_score_sorted geoW distZero [d1W] [] nbW 5).2.1⟩

/-- Folding the proximity update over stops that all lack coordinates
leaves the accumulator unchanged (the distance stays at infinity). -/
theorem foldl_none_coords (dist : (ℚ × ℚ) → (ℚ × ℚ) → ℚ) (tc : ℚ × ℚ) :
    ∀ (l : List OptStop) (m : Option ℚ), (∀ s ∈ l, s.coords = none) →
      l.foldl
          (fun m s =>
            match s.coords with
            | some c =>
                some (match m with
                      | none => dist c tc
                      | some q => min q (dist c tc))
            | none => m)
          m = m := by
  intro l
  induction l with
  | nil => intro m _; rfl
  | cons s t ih =>
      intro m hall
      have hs := hall s (List.mem_cons_self s t)
      rw [List.foldl_cons]
      have hstep : (match s.coords with
          | some c =>
              some (match m with
                    | none => dist c tc
                    | some q => min q (dist c tc))
          | none => m) = m := by
        rw [hs]
      rw [hstep]
      exact ih m (fun s' hs' => hall s' (List.mem_cons_of_mem s hs'))

/-- A finite proximity value forces the route to be empty or to have at
least one geocoded stop. -/
theorem distance_some_implies (geo : String → Option (ℚ × ℚ))
    (dist : (ℚ × ℚ) → (ℚ × ℚ) → ℚ) (route : OptRoute) (addr : String) (pq : ℚ) :
    calculate_distance_to_address geo dist route addr = some pq →
      route.stops = [] ∨ ∃ s ∈ route.stops, s.coords ≠ none := by
  unfold calculate_distance_to_address
  cases hg : geo addr with
  | none => simp
  | some tc =>
      dsimp only
      split
      next hlen => exact fun _ => Or.inl (List.length_eq_zero.mp hlen)
      next hlen =>
        intro hfold
        right
        by_contra hno
        push_neg at hno
        rw [foldl_none_coords dist tc route.stops none hno] at hfold
        exact Option.noConfusion hfold

/-- C8 (amended): if the new booking's delivery address fails geocoding no
driver at all is recommended, and a recommended driver's route is empty or
has at least one geocoded stop; however a driver whose route is only
PARTIALLY geocoded can still be recommended (see the counterexample). -/
theorem geocode_failure_handling (geo : String → Option (ℚ × ℚ))
    (dist : (ℚ × ℚ) → (ℚ × ℚ) → ℚ) (drivers : List DriverRec)
    (bookings : List BookingRec) (nb : NewBooking) (maxr : Nat) :
    (∀ addr, nb.delivery_address = some addr → geo addr = none →
      recommend_drivers geo dist drivers bookings nb maxr = []) ∧
    (∀ r ∈ recommend_drivers geo dist drivers bookings nb maxr,
      ∃ d ∈ drivers, r.driver_id = d.id ∧
        ∃ dd, nb.delivery_date = some dd ∧
          ((build_driver_route geo dist d bookings dd).stops = [] ∨
            ∃ s ∈ (build_driver_route geo dist d bookings dd).stops,
              s.coords ≠ none)) := by
  constructor
  · intro addr haddr hgeo
    cases hdd : nb.delivery_date with
    | none => simp [recommend_drivers, hdd]
    | some dd =>
        simp only [recommend_drivers, hdd, haddr]
        split
        · rfl
        · have hstep : ∀ acc d,
              recStep geo dist bookings dd nb.pickup_date addr acc d = acc := by
            intro acc d
            unfold recStep
            dsimp only
            split
            · rfl
            · split
              · rfl
              · have hdis : calculate_route_disruption geo dist
                    (build_driver_route geo dist d bookings dd) addr = none := by
                  unfold calculate_route_disruption
                  rw [hgeo]
                split
                next dq pq hdq hpq => rw [hdis] at hdq; exact Option.noConfusion hdq
                next => rfl
          have hfold : ∀ (l : List DriverRec) acc,
              l.foldl (recStep geo dist bookings dd nb.pickup_date addr) acc = acc := by
            intro l
            induction l with
            | nil => intro acc; rfl
            | cons d t ih => intro acc; rw [List.foldl_cons, hstep, ih]
          rw [hfold]
          simp
  · intro r hr
    obtain ⟨dd, addr, hdd, haddr, d, hd, hact, hconf, dq, pq, hdis, hdist, hrec⟩ :=
      mem_recommend_drivers geo dist drivers bookings nb maxr r hr
    exact ⟨d, hd, by rw [hrec]; rfl, dd, hdd,
      distance_some_implies geo dist _ addr pq hdist⟩

/-- Taxicab distance on coordinate pairs; any concrete distance works for
control-flow counterexamples, and on the equator the true haversine metric
is proportional to longitude difference, so these values are realizable. -/
def distTaxi : (ℚ × ℚ) → (ℚ × ℚ) → ℚ := fun c1 c2 =>
  |c1.1 - c2.1| + |c1.2 - c2.2|

/-- Geocoder for the partial-geocoding counterexample: one stop address
resolves, the other fails, the new booking's address resolves. -/
def geoC8 : String → Option (ℚ × ℚ) := fun a =>
  if a = "good" then some (0, 0) else if a = "new" then some (0, 1) else none

/-- Driver for the partial-geocoding counterexample. -/
def dC8 : DriverRec := { id := "d8", name := "Pat", is_active := true }

/-- Booking whose delivery address fails geocoding. -/
def bBad : BookingRec :=
  { booking_id := "b-bad", order_number := "PR-8", customer_name := "Cara"
    status := BookingStatus.confirmed, delivery_date := 5, pickup_date := 9
    delivery_address := "bad addr", delivery_driver_id := some "d8"
    pickup_driver_id := none, booking_items := [], delivery_fee := 50, tip := 0 }

/-- Booking whose delivery address geocodes. -/
def bGood : BookingRec :=
  { booking_id := "b-good", order_number := "PR-9", customer_name := "Cara"
    status := BookingStatus.confirmed, delivery_date := 5, pickup_date := 9
    delivery_address := "good", delivery_driver_id := some "d8"
    pickup_driver_id := none, booking_items := [], delivery_fee := 50, tip := 0 }

/-- New booking for the partial-geocoding counterexample. -/
def nbC8 : NewBooking :=
  { delivery_date := some 5, pickup_date := some 6, delivery_address := some "new" }

/-- C8 counterexample: driver `d8`'s route for day 5 has a stop whose
address failed geocoding (`coords = none`) and a geocoded one, yet the
driver is still recommended — a recommendation IS produced from a
partially geocoded route, refuting the claim as stated. -/
theorem partial_geocode_still_recommended :
    ((build_driver_route geoC8 distTaxi dC8 [bBad, bGood] 5).stops.map
        OptStop.coords = [none, some (0, 0)]) ∧
    (recommend_drivers geoC8 distTaxi [dC8] [bBad, bGood] nbC8 5).map
        DriverRecommendation.driver_id = ["d8"] := by
  constructor
  · rfl
  · rfl

/-- New booking whose delivery address fails geocoding, for the witness. -/
def nbC8fail : NewBooking :=
  { delivery_date := some 5, pickup_date := some 6
    delivery_address := some "missing" }

/-- Witness for the geocode-failure claim: an unresolvable new-booking
address empties the recommendations, and the recommended driver of the
witness scenario has an empty or partly geocoded route. -/
theorem geocode_failure_handling_witness :
    recommend_drivers geoW distZero [d1W] [] nbC8fail 5 = [] ∧
    (∃ d ∈ [d1W], recW.driver_id = d.id ∧
      ∃ dd, nbW.delivery_date = some dd ∧
        ((build_driver_route geoW distZero d [] dd).stops = [] ∨
          ∃ s ∈ (build_driver_route geoW distZero d [] dd).stops,
            s.coords ≠ none)) :=
  ⟨(geocode_failure_handling geoW distZero [d1W] [] nbC8fail 5).1 "missing" rfl rfl,
   (geocode_failure_handling geoW distZero [d1W] [] nbW 5).2 recW recW_mem⟩

/-- Python ordering on possibly-infinite floats (`none` is `inf`):
`a ≤ b` with infinity above every finite value. -/
def optLeInf : Option ℚ → Option ℚ → Prop
  | _, none => True
  | none, some _ => False
  | some x, some y => x ≤ y

/-- Geocoder for the disruption counterexample: three points on one line
(equator-style: the haversine distance between equator points is
proportional to their longitude difference, so these values are
realizable by the real metric). -/
def geo7 : String → Option (ℚ × ℚ) := fun a =>
  if a = "A" then some (0, 0)
  else if a = "B" then some (0, 9)
  else if a = "N" then some (0, 10) else none

/-- Existing stop at longitude 0. -/
def stopA : OptStop :=
  { address := "A", stop_type := "delivery", booking_id := "b1"
    coords := some (0, 0) }

/-- Appended stop at longitude 9, close to the new address. -/
def stopB : OptStop :=
  { address := "B", stop_type := "delivery", booking_id := "b2"
    coords := some (0, 9) }

/-- One-stop route holding only `stopA`. -/
def routeA : OptRoute :=
  { driver_id := "d", driver_name := "Dana", date := 5
    stops := [stopA], total_distance := 0 }

/-- C7 counterexample: appending `stopB` (near the new address `N`) to the
route `[A]` DECREASES the computed route disruption for `N` from 10 to 1,
refuting the claim that appending a stop can never decrease it. -/
theorem append_decreases_disruption :
    calculate_route_disruption geo7 distTaxi routeA "N" = some 10 ∧
    calculate_route_disruption geo7 distTaxi (addStop distTaxi routeA stopB) "N"
      = some 1 ∧
    ¬ ((10 : ℚ) ≤ 1) := by
  refine ⟨?_, ?_, by norm_num⟩
  · show some (distTaxi (0, 0) (0, 10)) = some 10
    norm_num [distTaxi]
  · show (foldMinQ (disruptionCands distTaxi (0, 10) [stopA, stopB])).map
        (fun q => max 0 q) = some 1
    show some (max 0 (min (distTaxi (0, 0) (0, 10) + distTaxi (0, 10) (0, 9)
        - distTaxi (0, 0) (0, 9)) (distTaxi (0, 9) (0, 10)))) = some 1
    norm_num [distTaxi]

/-- C7 (amended): the computed disruption is never negative, and appending
a stop to an EMPTY route can only increase or keep the value (it moves
from 0 to a nonnegative value or infinity) — but for nonempty routes
appending can decrease it (see the counterexample). -/
theorem disruption_nonneg_and_empty_monotone (geo : String → Option (ℚ × ℚ))
    (dist : (ℚ × ℚ) → (ℚ × ℚ) → ℚ) (hd : ∀ a b, 0 ≤ dist a b)
    (route : OptRoute) (addr : String) :
    (∀ q, calculate_route_disruption geo dist route addr = some q → 0 ≤ q) ∧
    (route.stops = [] → ∀ s : OptStop,
      optLeInf (calculate_route_disruption geo dist route addr)
        (calculate_route_disruption geo dist (addStop dist route s) addr)) := by
  constructor
  · intro q hq
    unfold calculate_route_disruption at hq
    cases hg : geo addr <;> rw [hg] at hq
    · exact Option.noConfusion hq
    · rcases hstops : route.stops with _ | ⟨s, _ | ⟨s2, rest⟩⟩
          <;> rw [hstops] at hq <;> dsimp only at hq
      · rw [← Option.some.inj hq]
      · cases hc : s.coords <;> rw [hc] at hq <;> dsimp only at hq
        · exact Option.noConfusion hq
        · rw [← Option.some.inj hq]
          exact hd _ _
      · obtain ⟨m, _, hqm⟩ := Option.map_eq_some'.mp hq
        rw [← hqm]
        exact le_sup_left
  · intro hstops s
    cases hg : geo addr with
    | none =>
        have e1 : calculate_route_disruption geo dist route addr = none := by
          unfold calculate_route_disruption
          rw [hg]
        have e2 : calculate_route_disruption geo dist (addStop dist route s) addr
            = none := by
          unfold calculate_route_disruption
          rw [hg]
        rw [e1, e2]
        exact trivial
    | some newc =>
        have e1 : calculate_route_disruption geo dist route addr = some 0 := by
          unfold calculate_route_disruption
          rw [hg, hstops]
        have e2 : calculate_route_disruption geo dist (addStop dist route s) addr
            = match s.coords with
              | some c => some (dist c newc)
              | none => none := by
          unfold calculate_route_disruption addStop
          rw [hg]
          dsimp only
          rw [hstops]
          rfl
        rw [e1, e2]
        cases hc : s.coords
        · exact trivial
        · show (0 : ℚ) ≤ dist _ newc
          exact hd _ _

/-- The taxicab distance is nonnegative. -/
theorem distTaxi_nonneg : ∀ a b : ℚ × ℚ, 0 ≤ distTaxi a b := fun a b =>
  add_nonneg (abs_nonneg _) (abs_nonneg _)

/-- Empty route used by the disruption witness. -/
def routeEmptyW : OptRoute :=
  { driver_id := "d1", driver_name := "Dana", date := 5
    stops := [], total_distance := 0 }

/-- Ungeoocoded stop used by the disruption witness. -/
def stopW : OptStop :=
  { address := "x", stop_type := "delivery", booking_id := "b", coords := none }

/-- Witness for the amended disruption claim, at an empty route whose
disruption is 0. -/
theorem disruption_nonneg_witness :
    (0 : ℚ) ≤ 0 ∧
    optLeInf (calculate_route_disruption geoW distTaxi routeEmptyW "new")
      (calculate_route_disruption geoW distTaxi
        (addStop distTaxi routeEmptyW stopW) "new") :=
  ⟨(disruption_nonneg_and_empty_monotone geoW distTaxi distTaxi_nonneg
      routeEmptyW "new").1 0 rfl,
   (disruption_nonneg_and_empty_monotone geoW distTaxi distTaxi_nonneg
      routeEmptyW "new").2 rfl stopW⟩

/-- The selection fold of `nearest_neighbor_route`, started from any
current best, agrees with `List.argAux` folded over the stops with usable
coordinates (the second accumulator component always caches the best
stop's distance). -/
theorem findNearest_fold_general (dist4 : ℚ → ℚ → ℚ → ℚ → ℚ) (cla clo : ℚ) :
    ∀ (l : List RouteStop) (o : Option RouteStop),
      (l.foldl
          (fun (acc : Option RouteStop × Option ℚ) stop =>
            if stopTruthy stop then
              let d := stopDist dist4 cla clo stop
              match acc.2 with
              | none => (some stop, some d)
              | some m => if d < m then (some stop, some d) else acc
            else acc)
          (o, o.map (stopDist dist4 cla clo))).1
        = (l.filter stopTruthy).foldl
            (List.argAux fun b c =>
              stopDist dist4 cla clo b < stopDist dist4 cla clo c) o := by
  intro l
  induction l with
  | nil => intro o; rfl
  | cons s t ih =>
      intro o
      rw [List.foldl_cons, List.filter_cons]
      by_cases hs : stopTruthy s
      · simp only [hs, if_true, List.foldl_cons]
        cases o with
        | none =>
            show (t.foldl _ (some s, some (stopDist dist4 cla clo s))).1
              = (t.filter stopTruthy).foldl _ (List.argAux _ none s)
            exact ih (some s)
        | some c =>
            show (t.foldl _
                (if stopDist dist4 cla clo s < stopDist dist4 cla clo c then
                  (some s, some (stopDist dist4 cla clo s))
                 else (some c, some (stopDist dist4 cla clo c)))).1
              = (t.filter stopTruthy).foldl _ (List.argAux _ (some c) s)
            by_cases hlt : stopDist dist4 cla clo s < stopDist dist4 cla clo c
            · rw [if_pos hlt]
              have ha : (List.argAux fun b c =>
                  stopDist dist4 cla clo b < stopDist dist4 cla clo c)
                    (some c) s = some s := by
                simp [List.argAux, hlt]
              rw [ha]
              exact ih (some s)
            · rw [if_neg hlt]
              have ha : (List.argAux fun b c =>
                  stopDist dist4 cla clo b < stopDist dist4 cla clo c)
                    (some c) s = some c := by
                simp [List.argAux, hlt]
              rw [ha]
              exact ih (some c)
      · simp only [hs, if_false, Bool.false_eq_true]
        exact ih o

/-- The source's selection loop computes exactly the first-encountered
argmin over the stops with usable coordinates. -/
theorem findNearest_eq_argmin (dist4 : ℚ → ℚ → ℚ → ℚ → ℚ) (cla clo : ℚ)
    (l : List RouteStop) :
    findNearest dist4 cla clo l
      = (l.filter stopTruthy).argmin (stopDist dist4 cla clo) := by
  unfold findNearest List.argmin
  exact findNearest_fold_general dist4 cla clo l none

/-- The source loop and the specification loop agree step by step. -/
theorem nnGo_eq_spec (dist4 : ℚ → ℚ → ℚ → ℚ → ℚ) :
    ∀ (fuel : Nat) (remaining : List RouteStop) (cla clo : ℚ),
      nnGo dist4 fuel remaining cla clo = nnSpecGo dist4 fuel remaining cla clo := by
  intro fuel
  induction fuel with
  | zero => intro r cla clo; rfl
  | succ n ih =>
      intro r cla clo
      unfold nnGo nnSpecGo specNearest
      rw [findNearest_eq_argmin]
      cases h : (r.filter stopTruthy).argmin (stopDist dist4 cla clo) with
      | none => rfl
      | some s =>
          dsimp only
          rw [ih]

/-- C9: `nearest_neighbor_route` implements the greedy nearest-neighbor
ordering described by the spec: starting from the depot it repeatedly
appends the remaining stop with usable coordinates of minimal distance to
the current position (ties to the earlier stop, by `List.argmin`) and
advances to it; as soon as no remaining stop has usable coordinates, all
remaining stops are appended in original relative order.  Determinism is
immediate since both sides are functions of the input. -/
theorem nearest_neighbor_route_greedy (dist4 : ℚ → ℚ → ℚ → ℚ → ℚ)
    (stops : List RouteStop) (start_lat start_lon : ℚ) :
    nearest_neighbor_route dist4 stops start_lat start_lon
      = nnRouteSpec dist4 stops start_lat start_lon := by
  unfold nearest_neighbor_route nnRouteSpec
  exact nnGo_eq_spec dist4 stops.length stops start_lat start_lon

/-- Four-argument taxicab distance mirroring `calculate_distance`'s
signature; on the equator the haversine formula is proportional to the
longitude difference, so these values are realizable. -/
def dist4Taxi : ℚ → ℚ → ℚ → ℚ → ℚ := fun la lo lb lob =>
  |la - lb| + |lo - lob|

/-- Stop on the equator: latitude exactly 0 (falsy in Python), nearest to
the depot. -/
def s0C : RouteStop := { booking_id := "s0", latitude := some 0, longitude := some 1 }

/-- Ordinary stop with nonzero coordinates, farther from the depot. -/
def s1C : RouteStop := { booking_id := "s1", latitude := some 3, longitude := some 3 }

/-- C10: with the depot at (0,0), stop `s0C` at latitude exactly 0 is
strictly nearest but is never considered by the greedy selection (Python
truthiness treats latitude 0 as missing): the route visits `s1C` first and
appends `s0C` through the no-coordinates fallback, after all stops with
nonzero coordinates. -/
theorem zero_coordinate_fallback :
    nearest_neighbor_route dist4Taxi [s0C, s1C] 0 0 = [s1C, s0C] ∧
    s0C.latitude = some 0 ∧
    stopTruthy s0C = false ∧ stopTruthy s1C = true ∧
    dist4Taxi 0 0 0 1 < dist4Taxi 0 0 3 3 := by
  refine ⟨rfl, rfl, rfl, rfl, ?_⟩
  norm_num [dist4Taxi]

end Rentalbiz
